import Mathlib

/-!
Verification of the wobblyjelly plugin core (wobblyjelly/main.cpp).

The C++ source is shallowly embedded here:
* floats and doubles are modelled as `ℚ` in the mesh / state / velocity code
  (all operations there are field operations, exact over `ℚ`), and as `ℝ`
  in the shader displacement model (which uses `sin`, `exp`, `sqrt`);
* the per-window `WindowJellyState` struct becomes a Lean structure, the GL
  handle fields (`vao`/`vbo`/`ebo`) are represented by the cached mesh being
  present (`Option Mesh`), and the shader handle by a `Bool`;
* event handlers and the render hook become pure state transformers;
* GLSL `normalize` of a zero-length vector is undefined (NaN under IEEE
  division 0/0); the displacement model returns `Option`, with `none`
  standing for a NaN result.
-/

namespace WobblyJelly

/-- Embeds `struct JellyVertex { float x, y; float u, v; }`. -/
structure JellyVertex where
  x : ℚ
  y : ℚ
  u : ℚ
  v : ℚ
deriving Repr, DecidableEq

/-- A generated mesh: the vertex array and the triangle index array that
`generateGrid` fills (`verts` / `idx` in the C++ source). Indices are `ℤ`
since the source computes them with `int` arithmetic. -/
structure Mesh where
  verts : List JellyVertex
  idx : List ℤ
deriving Repr, DecidableEq

/-- One vertex of the grid, from the inner loop body of `generateGrid`:
`tx = (float)c/(float)cols`, `ty = (float)r/(float)rows`,
position `((tx-0.5f)*winW, (ty-0.5f)*winH)`, uv `(tx, 1.0f-ty)`. -/
def gridVertex (cols rows : ℤ) (winW winH : ℚ) (r c : ℕ) : JellyVertex :=
  { x := ((c : ℚ) / (cols : ℚ) - 1/2) * winW
    y := ((r : ℚ) / (rows : ℚ) - 1/2) * winH
    u := (c : ℚ) / (cols : ℚ)
    v := 1 - (r : ℚ) / (rows : ℚ) }

/-- The vertex array of `generateGrid`: outer loop `r = 0..rows` inclusive,
inner loop `c = 0..cols` inclusive; a `for (int r = 0; r <= rows; ++r)` loop
executes `(rows+1).toNat` iterations. -/
def gridVerts (cols rows : ℤ) (winW winH : ℚ) : List JellyVertex :=
  (List.range (rows + 1).toNat).flatMap fun r =>
    (List.range (cols + 1).toNat).map fun c => gridVertex cols rows winW winH r c

/-- The six indices `generateGrid` pushes for grid cell `(r, c)`:
`i0 = r*(cols+1)+c`, `i1 = i0+1`, `i2 = i0+(cols+1)`, `i3 = i2+1`,
emitted in the order `i0, i2, i1, i1, i2, i3`. -/
def cellIdx (cols : ℤ) (r c : ℕ) : List ℤ :=
  let i0 : ℤ := (r : ℤ) * (cols + 1) + (c : ℤ)
  let i1 : ℤ := i0 + 1
  let i2 : ℤ := i0 + (cols + 1)
  let i3 : ℤ := i2 + 1
  [i0, i2, i1, i1, i2, i3]

/-- The index array of `generateGrid`: outer loop `r = 0..rows-1`, inner
loop `c = 0..cols-1`, two triangles per cell. -/
def gridIdx (cols rows : ℤ) : List ℤ :=
  (List.range rows.toNat).flatMap fun r =>
    (List.range cols.toNat).flatMap fun c => cellIdx cols r c

/-- The pure content of `generateGrid(st, cols, rows, winW, winH)`: the
vertex and index arrays it builds (the GL buffer upload is collaborator
glue). The source performs no validation of `cols`, `rows`, `winW`, `winH`
and has no failure path, so this is a total function. -/
def generateGrid (cols rows : ℤ) (winW winH : ℚ) : Mesh :=
  { verts := gridVerts cols rows winW winH
    idx := gridIdx cols rows }

/-- Embeds `struct WindowJellyState`. GL handles are abstracted: `mesh`
is `some m` when `vao`/`vbo`/`ebo` hold an uploaded grid (`vao != 0`),
`shader` is `true` when a shader program handle is present. Field defaults
mirror the C++ member initializers. -/
structure WindowJellyState where
  dragging : Bool := false
  lastX : ℚ := 0
  lastY : ℚ := 0
  vx : ℚ := 0
  vy : ℚ := 0
  lastTime : ℚ := 0
  mesh : Option Mesh := none
  shader : Bool := false
  gridCols : ℤ := 20
  gridRows : ℤ := 12
  indexCount : ℤ := 0
deriving Repr, DecidableEq

/-- A freshly created state, as inserted by `g_states[pWin]` on first
access (all member initializers). -/
def initState : WindowJellyState := {}

/-- The state effect of `generateGrid`: stores the mesh and sets
`st.gridCols`, `st.gridRows`, `st.indexCount = idx.size()`. -/
def generateGridSt (st : WindowJellyState) (cols rows : ℤ) (winW winH : ℚ) :
    WindowJellyState :=
  { st with
    mesh := some (generateGrid cols rows winW winH)
    gridCols := cols
    gridRows := rows
    indexCount := ((generateGrid cols rows winW winH).idx.length : ℤ) }

/-- Embeds `onMoveBegin`: sets `dragging = true`, `lastTime = now`, and
compiles the shader if absent (so `shader` is `true` afterwards either
way). -/
def onMoveBegin (st : WindowJellyState) (now : ℚ) : WindowJellyState :=
  { st with dragging := true, lastTime := now, shader := true }

/-- Embeds `onMove`: computes a `dt` it never uses, then stores
`lastTime = now`. No other field is touched. -/
def onMove (st : WindowJellyState) (now : ℚ) : WindowJellyState :=
  { st with lastTime := now }

/-- Embeds `onMoveEnd`: clears the dragging flag only. -/
def onMoveEnd (st : WindowJellyState) : WindowJellyState :=
  { st with dragging := false }

/-- The uniform parameter set `onPreRenderWindow` hands to the draw call. -/
structure Uniforms where
  winSizeW : ℚ
  winSizeH : ℚ
  centerX : ℚ
  centerY : ℚ
  velX : ℚ
  velY : ℚ
  time : ℚ
  amplitude : ℚ
  frequency : ℚ
  damping : ℚ
deriving Repr, DecidableEq

/-- What `onPreRenderWindow` hands to the GL draw call: the cached mesh,
the uniforms, the bound texture handle and the element count of
`glDrawElements`. -/
structure RenderOutput where
  mesh : Option Mesh
  uniforms : Uniforms
  tex : ℤ
  drawCount : ℤ
deriving Repr, DecidableEq

/-- Embeds `onPreRenderWindow` for one window: lazily generates the grid
when no vao exists, computes `dt = max(1e-6, now - lastTime)`, seeds
`lastX`/`lastY` with the current position when `lastTime == 0`, derives
the velocity by finite differences, stores position/time/velocity back
into the state, and produces the uniform set
`(winSize, center=(0,0), velocity, time=now, 6.0, 0.02, 0.02)` plus the
draw parameters. -/
def onPreRenderWindow (st : WindowJellyState) (w h xpos ypos : ℚ) (tex : ℤ)
    (now : ℚ) : WindowJellyState × RenderOutput :=
  let st1 := if st.mesh = none then generateGridSt st st.gridCols st.gridRows w h
             else st
  let dt : ℚ := max (1/1000000) (now - st1.lastTime)
  let lx : ℚ := if st1.lastTime = 0 then xpos else st1.lastX
  let ly : ℚ := if st1.lastTime = 0 then ypos else st1.lastY
  let vx : ℚ := (xpos - lx) / dt
  let vy : ℚ := (ypos - ly) / dt
  let st2 := { st1 with lastX := xpos, lastY := ypos, vx := vx, vy := vy,
                        lastTime := now }
  (st2,
   { mesh := st2.mesh
     uniforms :=
       { winSizeW := w, winSizeH := h, centerX := 0, centerY := 0,
         velX := vx, velY := vy, time := now, amplitude := 6,
         frequency := 1/50, damping := 1/50 }
     tex := tex
     drawCount := st2.indexCount })

/-! ### The vertex shader displacement model (vertexShaderSrc), over ℝ -/

/-- `dist = length(vec2(dx, dy))` with `dx = aPos.x - uCenter.x`,
`dy = aPos.y - uCenter.y`. -/
noncomputable def jellyDist (pos center : ℝ × ℝ) : ℝ :=
  Real.sqrt ((pos.1 - center.1) ^ 2 + (pos.2 - center.2) ^ 2)

/-- `wave = sin(uFrequency*dist - uTime*6.2831) * uAmplitude *
exp(-dist*uDamping)`. -/
noncomputable def jellyWave (pos center : ℝ × ℝ)
    (time frequency amplitude damping : ℝ) : ℝ :=
  Real.sin (frequency * jellyDist pos center - time * (62831/10000)) *
    amplitude * Real.exp (-(jellyDist pos center) * damping)

/-- `1.0 + length(uVelocity) * 5.0`, the velocity boost factor. -/
noncomputable def jellyVelBoost (vel : ℝ × ℝ) : ℝ :=
  1 + Real.sqrt (vel.1 ^ 2 + vel.2 ^ 2) * 5

/-- `vec2(dx + 0.0001, dy + 0.0001)`, the biased direction fed to
`normalize`. -/
noncomputable def jellyDirRaw (pos center : ℝ × ℝ) : ℝ × ℝ :=
  (pos.1 - center.1 + 1/10000, pos.2 - center.2 + 1/10000)

/-- GLSL `normalize`: divides the vector by its length. For a zero-length
vector the division is 0/0, which is NaN under IEEE arithmetic; that
undefined case is modelled as `none`. -/
noncomputable def normalizeOpt (v : ℝ × ℝ) : Option (ℝ × ℝ) :=
  if Real.sqrt (v.1 ^ 2 + v.2 ^ 2) = 0 then none
  else some (v.1 / Real.sqrt (v.1 ^ 2 + v.2 ^ 2),
             v.2 / Real.sqrt (v.1 ^ 2 + v.2 ^ 2))

/-- The shader main body as a function of one vertex:
`displaced = aPos + normalize(vec2(dx+0.0001, dy+0.0001)) * (wave *
(1 + length(uVelocity)*5))`. Returns `none` when the computation hits the
undefined `normalize(0)` (a NaN result), `some` of the displaced position
otherwise. -/
noncomputable def displace (pos center vel : ℝ × ℝ)
    (time amplitude frequency damping : ℝ) : Option (ℝ × ℝ) :=
  (normalizeOpt (jellyDirRaw pos center)).map fun n =>
    (pos.1 + n.1 * (jellyWave pos center time frequency amplitude damping *
        jellyVelBoost vel),
     pos.2 + n.2 * (jellyWave pos center time frequency amplitude damping *
        jellyVelBoost vel))

/-! ### Generic lemmas about flattened loop nests -/

/-- Indexing a flattened loop nest whose inner blocks all have length `m`:
entry `r*m + c` of `(range' s n).flatMap g` is entry `c` of block `s + r`. -/
theorem getElem?_flatMap_range' {α : Type} (g : ℕ → List α) (m : ℕ)
    (hg : ∀ i, (g i).length = m) :
    ∀ (n s r c : ℕ), r < n → c < m →
      ((List.range' s n).flatMap g)[r * m + c]? = (g (s + r))[c]? := by
  intro n
  induction n with
  | zero => exact fun s r c hr _ => absurd hr (Nat.not_lt_zero r)
  | succ n ih =>
    intro s r c hr hc
    rw [List.range'_succ, List.flatMap_cons]
    cases r with
    | zero =>
      rw [Nat.zero_mul, Nat.zero_add,
        List.getElem?_append_left (by rw [hg]; exact hc)]
      simp
    | succ r =>
      have hm1 : 1 * m ≤ (r + 1) * m := Nat.mul_le_mul_right m (by omega)
      have hlen : (g s).length ≤ (r + 1) * m + c := by
        rw [hg]; rw [Nat.one_mul] at hm1; omega
      rw [List.getElem?_append_right hlen, hg]
      have hidx : (r + 1) * m + c - m = r * m + c := by
        rw [Nat.add_mul, Nat.one_mul]; omega
      rw [hidx, ih (s + 1) r c (by omega) hc]
      have hs : s + (r + 1) = s + 1 + r := by omega
      rw [hs]

/-- Indexing a flattened loop nest over `range n`. -/
theorem getElem?_flatMap_range {α : Type} (g : ℕ → List α) (m n r c : ℕ)
    (hg : ∀ i, (g i).length = m) (hr : r < n) (hc : c < m) :
    ((List.range n).flatMap g)[r * m + c]? = (g r)[c]? := by
  rw [List.range_eq_range', getElem?_flatMap_range' g m hg n 0 r c hr hc,
    Nat.zero_add]

/-- Length of a flattened loop nest whose inner blocks all have length
`m`. -/
theorem length_flatMap_range {α : Type} (g : ℕ → List α) (m : ℕ)
    (hg : ∀ i, (g i).length = m) :
    ∀ n, ((List.range n).flatMap g).length = n * m := by
  intro n
  induction n with
  | zero => simp
  | succ n ih =>
    rw [List.range_succ, List.flatMap_append, List.length_append, ih]
    simp [hg, Nat.succ_mul]

/-- Length of the vertex array, for arbitrary (also degenerate) `cols`,
`rows`. -/
theorem gridVerts_length (cols rows : ℤ) (w h : ℚ) :
    (gridVerts cols rows w h).length = (rows + 1).toNat * (cols + 1).toNat :=
  length_flatMap_range _ _ (fun _ => by simp) _

/-- Length of the index array, for arbitrary (also degenerate) `cols`,
`rows`. -/
theorem gridIdx_length (cols rows : ℤ) :
    (gridIdx cols rows).length = rows.toNat * (cols.toNat * 6) := by
  unfold gridIdx
  exact length_flatMap_range
    (fun r => (List.range cols.toNat).flatMap fun c => cellIdx cols r c)
    (cols.toNat * 6)
    (fun r => length_flatMap_range (fun c => cellIdx cols r c) 6
      (fun c => rfl) cols.toNat)
    rows.toNat

/-- C4 counterexample: at `cols = 0` (violating `cols >= 1`) the grid
generator does not fail and does produce a mesh: it returns 2 vertices
and an empty index array instead of signalling an `InvalidDimension`
error. -/
theorem generateGrid_cols_zero_produces_mesh :
    (generateGrid 0 1 4 2).verts.length = 2 ∧
    (generateGrid 0 1 4 2).verts ≠ [] ∧
    (generateGrid 0 1 4 2).idx = [] := by
  have h2 : (generateGrid 0 1 4 2).verts.length = 2 := rfl
  refine ⟨h2, fun hnil => ?_, rfl⟩
  rw [hnil] at h2
  simp at h2

/-- C4 (amended): grid generation performs no input validation and has no
failure path: for every `cols`, `rows` (including values below 1) and every
`width`, `height` it totally returns a mesh with
`(rows+1)·(cols+1)` vertices and `rows·cols·6` indices (negative loop
bounds clamping to zero iterations). -/
theorem generateGrid_no_validation (cols rows : ℤ) (w h : ℚ) :
    (generateGrid cols rows w h).verts.length =
      (rows + 1).toNat * (cols + 1).toNat ∧
    (generateGrid cols rows w h).idx.length =
      rows.toNat * (cols.toNat * 6) :=
  ⟨gridVerts_length cols rows w h, gridIdx_length cols rows⟩

/-- C5: the render-pass velocity update computes
`dt = max(1e-6, now - lastTime)` and `velocity = (pos - lastPos) / dt`
component-wise, seeding `lastPos` with the current position when
`lastTime == 0`; consequently a first call on a state with
`lastTime = 0` yields velocity `(0,0)`, and a second call one second
later with the position advanced by `(10,0)` yields velocity `(10,0)`. -/
theorem velocity_estimator_update :
    (∀ (st : WindowJellyState) (w h x y : ℚ) (tex : ℤ) (now : ℚ),
      ((onPreRenderWindow st w h x y tex now).1.vx =
        (x - (if st.lastTime = 0 then x else st.lastX)) /
          max (1/1000000) (now - st.lastTime)) ∧
      ((onPreRenderWindow st w h x y tex now).1.vy =
        (y - (if st.lastTime = 0 then y else st.lastY)) /
          max (1/1000000) (now - st.lastTime)) ∧
      (onPreRenderWindow st w h x y tex now).1.lastX = x ∧
      (onPreRenderWindow st w h x y tex now).1.lastY = y ∧
      (onPreRenderWindow st w h x y tex now).1.lastTime = now) ∧
    (∀ (st : WindowJellyState) (w h x y : ℚ) (tex : ℤ) (now : ℚ),
      st.lastTime = 0 → 0 < now →
      ((onPreRenderWindow st w h x y tex now).1.vx = 0 ∧
       (onPreRenderWindow st w h x y tex now).1.vy = 0) ∧
      ((onPreRenderWindow (onPreRenderWindow st w h x y tex now).1
          w h (x + 10) y tex (now + 1)).1.vx = 10 ∧
       (onPreRenderWindow (onPreRenderWindow st w h x y tex now).1
          w h (x + 10) y tex (now + 1)).1.vy = 0)) := by
  have hmax : ((1000000 : ℚ)⁻¹ ⊔ 1) = 1 := max_eq_right (by norm_num)
  constructor
  · intro st w h x y tex now
    by_cases hm : st.mesh = none <;>
      simp [onPreRenderWindow, generateGridSt, hm]
  · intro st w h x y tex now h0 hnow
    have hne : now ≠ 0 := ne_of_gt hnow
    by_cases hm : st.mesh = none <;>
      simp [onPreRenderWindow, generateGridSt, hm, h0, hne,
        add_sub_cancel_left, hmax]

/-- Witness for C5 at a concrete input: fresh state, first frame at
`t = 5` with position `(3,4)`, second frame at `t = 6` with position
`(13,4)`. -/
theorem velocity_estimator_update_witness :
    initState.lastTime = 0 ∧ (0 : ℚ) < 5 ∧
    (((onPreRenderWindow initState 100 50 3 4 7 5).1.vx = 0 ∧
      (onPreRenderWindow initState 100 50 3 4 7 5).1.vy = 0) ∧
     ((onPreRenderWindow (onPreRenderWindow initState 100 50 3 4 7 5).1
         100 50 (3 + 10) 4 7 (5 + 1)).1.vx = 10 ∧
      (onPreRenderWindow (onPreRenderWindow initState 100 50 3 4 7 5).1
         100 50 (3 + 10) 4 7 (5 + 1)).1.vy = 0)) :=
  ⟨rfl, by norm_num,
    velocity_estimator_update.2 initState 100 50 3 4 7 5 rfl (by norm_num)⟩

/-- C6 (code behavior at the failing input): on a fresh surface state, a
`beginDrag` at `t = 1` followed by the first render frame at `t = 2` with
window position `(10,0)` makes the first velocity sample `(10,0)`:
`beginDrag` overwrote the `lastTime == 0` "never sampled" sentinel, so
the velocity is computed from the default `lastX = lastY = 0` rather
than being initialized to `(0,0)`. -/
theorem first_sample_after_beginDrag_nonzero :
    ((onPreRenderWindow (onMoveBegin initState 1) 100 50 10 0 7 2).1.vx = 10 ∧
     (onPreRenderWindow (onMoveBegin initState 1) 100 50 10 0 7 2).1.vy = 0) ∧
    ¬((onPreRenderWindow (onMoveBegin initState 1) 100 50 10 0 7 2).1.vx
        = 0) := by
  have hmax : max (1/1000000 : ℚ) (2 - 1) = 1 := by
    rw [max_eq_right] <;> norm_num
  norm_num [onPreRenderWindow, onMoveBegin, initState, generateGridSt, hmax]

/-- C7 counterexample: the event handlers do mutate a temporal field:
`beginDrag` and `updateDrag` on a fresh state at `now = 1` both change
`lastTime` from 0 to 1. -/
theorem event_handlers_mutate_lastTime :
    (onMoveBegin initState 1).lastTime ≠ initState.lastTime ∧
    (onMove initState 1).lastTime ≠ initState.lastTime := by
  constructor <;> · show (1 : ℚ) ≠ 0; norm_num

/-- C7 (amended): the event handlers never touch `lastPosition` or
`velocity`, and `endDrag` touches none of the three temporal fields, but
`beginDrag` and `updateDrag` both set `lastTimestamp` to the current
time. -/
theorem event_handlers_temporal_effects (st : WindowJellyState) (now : ℚ) :
    ((onMoveBegin st now).lastX = st.lastX ∧
     (onMoveBegin st now).lastY = st.lastY ∧
     (onMoveBegin st now).vx = st.vx ∧ (onMoveBegin st now).vy = st.vy ∧
     (onMoveBegin st now).lastTime = now) ∧
    ((onMove st now).lastX = st.lastX ∧ (onMove st now).lastY = st.lastY ∧
     (onMove st now).vx = st.vx ∧ (onMove st now).vy = st.vy ∧
     (onMove st now).lastTime = now) ∧
    ((onMoveEnd st).lastX = st.lastX ∧ (onMoveEnd st).lastY = st.lastY ∧
     (onMoveEnd st).vx = st.vx ∧ (onMoveEnd st).vy = st.vy ∧
     (onMoveEnd st).lastTime = st.lastTime) :=
  ⟨⟨rfl, rfl, rfl, rfl, rfl⟩, ⟨rfl, rfl, rfl, rfl, rfl⟩,
   ⟨rfl, rfl, rfl, rfl, rfl⟩⟩

/-- C8: the per-frame render pass never reads the dragging flag: flipping
`dragging` on the input state leaves the render output unchanged and
changes nothing else in the resulting state, and the emitted uniform set
is exactly `(winSize, center=(0,0), velocity, time=now, 6.0, 0.02,
0.02)`. -/
theorem render_pass_ignores_dragging (st : WindowJellyState) (d : Bool)
    (w h x y : ℚ) (tex : ℤ) (now : ℚ) :
    (onPreRenderWindow { st with dragging := d } w h x y tex now).2 =
      (onPreRenderWindow st w h x y tex now).2 ∧
    (onPreRenderWindow { st with dragging := d } w h x y tex now).1 =
      { (onPreRenderWindow st w h x y tex now).1 with dragging := d } ∧
    (onPreRenderWindow st w h x y tex now).2.uniforms =
      { winSizeW := w, winSizeH := h, centerX := 0, centerY := 0,
        velX := (onPreRenderWindow st w h x y tex now).1.vx,
        velY := (onPreRenderWindow st w h x y tex now).1.vy,
        time := now, amplitude := 6, frequency := 1/50,
        damping := 1/50 } := by
  by_cases hm : st.mesh = none <;>
    simp [onPreRenderWindow, generateGridSt, hm]

/-- C1: the grid generator emits vertices in row-major order (outer loop
rows, inner loop columns): for `r ≤ rows` and `c ≤ cols` the vertex at
flat position `r*(cols+1)+c` has position
`((c/cols - 0.5)*width, (r/rows - 0.5)*height)` and uv
`(c/cols, 1 - r/rows)`. -/
theorem grid_vertex_positions (cols rows : ℤ) (w h : ℚ) (hc : 1 ≤ cols)
    (hr : 1 ≤ rows) (hw : 0 ≤ w) (hh : 0 ≤ h) (r c : ℕ)
    (hrr : r ≤ rows.toNat) (hcc : c ≤ cols.toNat) :
    (generateGrid cols rows w h).verts[r * (cols.toNat + 1) + c]? =
      some { x := ((c : ℚ) / (cols : ℚ) - 1/2) * w
             y := ((r : ℚ) / (rows : ℚ) - 1/2) * h
             u := (c : ℚ) / (cols : ℚ)
             v := 1 - (r : ℚ) / (rows : ℚ) } := by
  have hcn : (cols + 1).toNat = cols.toNat + 1 := by omega
  show (gridVerts cols rows w h)[r * (cols.toNat + 1) + c]? = _
  unfold gridVerts
  rw [← hcn]
  rw [getElem?_flatMap_range
      (fun r => (List.range (cols + 1).toNat).map
        fun c => gridVertex cols rows w h r c)
      ((cols + 1).toNat) ((rows + 1).toNat) r c
      (fun i => by simp) (by omega) (by omega)]
  rw [List.getElem?_map, List.getElem?_range (by omega)]
  rfl

/-- Witness for C1 at the claim's concrete instance `cols=2, rows=1,
width=4, height=2`: vertex at row 0, column 0 (flat position 0) and
vertex at row 1, column 2 (flat position 5). -/
theorem grid_vertex_positions_witness :
    (generateGrid 2 1 4 2).verts[0]? = some ⟨-2, -1, 0, 1⟩ ∧
    (generateGrid 2 1 4 2).verts[5]? = some ⟨2, 1, 1, 0⟩ := by
  have h1 := grid_vertex_positions 2 1 4 2 (by norm_num) (by norm_num)
    (by norm_num) (by norm_num) 0 0 (by decide) (by decide)
  have h2 := grid_vertex_positions 2 1 4 2 (by norm_num) (by norm_num)
    (by norm_num) (by norm_num) 1 2 (by decide) (by decide)
  norm_num [Int.toNat_ofNat] at h1 h2
  exact ⟨h1, h2⟩

/-- Entry `6*(r*cols + c) + j` of the index array is entry `j` of the
six indices pushed for cell `(r, c)`. -/
theorem gridIdx_getElem (cols rows : ℤ) (r c j : ℕ) (hrr : r < rows.toNat)
    (hcc : c < cols.toNat) (hj : j < 6) :
    (gridIdx cols rows)[6 * (r * cols.toNat + c) + j]? =
      (cellIdx cols r c)[j]? := by
  unfold gridIdx
  have hidx : 6 * (r * cols.toNat + c) + j =
      r * (cols.toNat * 6) + (c * 6 + j) := by ring
  rw [hidx]
  rw [getElem?_flatMap_range
      (fun r => (List.range cols.toNat).flatMap fun c => cellIdx cols r c)
      (cols.toNat * 6) rows.toNat r (c * 6 + j)
      (fun i => length_flatMap_range (fun c => cellIdx cols i c) 6
        (fun _ => rfl) cols.toNat)
      hrr (by omega)]
  rw [getElem?_flatMap_range (fun c => cellIdx cols r c) 6 cols.toNat c j
      (fun i => rfl) hcc hj]

/-- C2: per cell `(r, c)` (with `r < rows`, `c < cols`), letting
`i0 = r*(cols+1)+c`, `i1 = i0+1`, `i2 = i0+(cols+1)`, `i3 = i2+1`, the
generator emits at positions `6*(r*cols+c) .. 6*(r*cols+c)+5` exactly
the triangle `(i0, i2, i1)` followed by the triangle `(i1, i2, i3)`. -/
theorem grid_triangle_indices (cols rows : ℤ) (w h : ℚ) (hc : 1 ≤ cols)
    (hr : 1 ≤ rows) (r c : ℕ) (hrr : r < rows.toNat)
    (hcc : c < cols.toNat) :
    ((generateGrid cols rows w h).idx[6 * (r * cols.toNat + c)]? =
        some ((r : ℤ) * (cols + 1) + (c : ℤ)) ∧
     (generateGrid cols rows w h).idx[6 * (r * cols.toNat + c) + 1]? =
        some ((r : ℤ) * (cols + 1) + (c : ℤ) + (cols + 1)) ∧
     (generateGrid cols rows w h).idx[6 * (r * cols.toNat + c) + 2]? =
        some ((r : ℤ) * (cols + 1) + (c : ℤ) + 1)) ∧
    ((generateGrid cols rows w h).idx[6 * (r * cols.toNat + c) + 3]? =
        some ((r : ℤ) * (cols + 1) + (c : ℤ) + 1) ∧
     (generateGrid cols rows w h).idx[6 * (r * cols.toNat + c) + 4]? =
        some ((r : ℤ) * (cols + 1) + (c : ℤ) + (cols + 1)) ∧
     (generateGrid cols rows w h).idx[6 * (r * cols.toNat + c) + 5]? =
        some ((r : ℤ) * (cols + 1) + (c : ℤ) + (cols + 1) + 1)) :=
  ⟨⟨(gridIdx_getElem cols rows r c 0 hrr hcc (by norm_num)).trans rfl,
    (gridIdx_getElem cols rows r c 1 hrr hcc (by norm_num)).trans rfl,
    (gridIdx_getElem cols rows r c 2 hrr hcc (by norm_num)).trans rfl⟩,
   (gridIdx_getElem cols rows r c 3 hrr hcc (by norm_num)).trans rfl,
   (gridIdx_getElem cols rows r c 4 hrr hcc (by norm_num)).trans rfl,
   (gridIdx_getElem cols rows r c 5 hrr hcc (by norm_num)).trans rfl⟩

/-- Witness for C2 at `cols=2, rows=1`, cell `(r,c) = (0,1)`:
`i0 = 1`, `i1 = 2`, `i2 = 4`, `i3 = 5`, so positions `6..11` of the index
array hold `1, 4, 2, 2, 4, 5`. -/
theorem grid_triangle_indices_witness :
    (generateGrid 2 1 4 2).idx[6]? = some 1 ∧
    (generateGrid 2 1 4 2).idx[7]? = some 4 ∧
    (generateGrid 2 1 4 2).idx[8]? = some 2 ∧
    (generateGrid 2 1 4 2).idx[9]? = some 2 ∧
    (generateGrid 2 1 4 2).idx[10]? = some 4 ∧
    (generateGrid 2 1 4 2).idx[11]? = some 5 := by
  have h := grid_triangle_indices 2 1 4 2 (by norm_num) (by norm_num) 0 1
    (by decide) (by decide)
  norm_num [Int.toNat_ofNat] at h
  exact ⟨h.1.1, h.1.2.1, h.1.2.2, h.2.1, h.2.2.1, h.2.2.2⟩

/-- C3: for `cols, rows ≥ 1` and `width, height ≥ 0` the generated mesh
has exactly `(cols+1)*(rows+1)` vertices and `cols*rows*6` indices, every
index is nonnegative and strictly below the vertex count, and every uv
component of every vertex lies in `[0, 1]`. -/
theorem grid_mesh_invariants (cols rows : ℤ) (w h : ℚ) (hc : 1 ≤ cols)
    (hr : 1 ≤ rows) (hw : 0 ≤ w) (hh : 0 ≤ h) :
    (generateGrid cols rows w h).verts.length =
      (cols.toNat + 1) * (rows.toNat + 1) ∧
    (generateGrid cols rows w h).idx.length =
      cols.toNat * rows.toNat * 6 ∧
    (∀ i ∈ (generateGrid cols rows w h).idx,
      0 ≤ i ∧ i < ((generateGrid cols rows w h).verts.length : ℤ)) ∧
    (∀ v ∈ (generateGrid cols rows w h).verts,
      0 ≤ v.u ∧ v.u ≤ 1 ∧ 0 ≤ v.v ∧ v.v ≤ 1) := by
  have hcn : (cols + 1).toNat = cols.toNat + 1 := by omega
  have hrn : (rows + 1).toNat = rows.toNat + 1 := by omega
  have hlen : (generateGrid cols rows w h).verts.length =
      (cols.toNat + 1) * (rows.toNat + 1) := by
    show (gridVerts cols rows w h).length = _
    rw [gridVerts_length, hcn, hrn]; ring
  have hlenz : ((generateGrid cols rows w h).verts.length : ℤ) =
      (rows + 1) * (cols + 1) := by
    rw [hlen]
    push_cast
    have h1 : ((cols.toNat : ℤ) + 1) = cols + 1 := by omega
    have h2 : ((rows.toNat : ℤ) + 1) = rows + 1 := by omega
    rw [h1, h2]; ring
  refine ⟨hlen, ?_, ?_, ?_⟩
  · show (gridIdx cols rows).length = _
    rw [gridIdx_length]; ring
  · intro i hi
    rw [hlenz]
    have hmem : i ∈ gridIdx cols rows := hi
    rw [gridIdx] at hmem
    rw [List.mem_flatMap] at hmem
    obtain ⟨r, hrm, hmem⟩ := hmem
    rw [List.mem_flatMap] at hmem
    obtain ⟨c, hcm, hmem⟩ := hmem
    rw [List.mem_range] at hrm hcm
    have hr1 : (r : ℤ) + 1 ≤ rows := by omega
    have hc1 : (c : ℤ) + 1 ≤ cols := by omega
    have h0r : (0 : ℤ) ≤ (r : ℤ) := Int.natCast_nonneg r
    have h0c : (0 : ℤ) ≤ (c : ℤ) := Int.natCast_nonneg c
    have hmul : ((r : ℤ) + 1) * (cols + 1) ≤ rows * (cols + 1) :=
      mul_le_mul_of_nonneg_right hr1 (by omega)
    have hrc : (0 : ℤ) ≤ (r : ℤ) * (cols + 1) := mul_nonneg h0r (by omega)
    simp only [cellIdx, List.mem_cons, List.not_mem_nil, or_false] at hmem
    rcases hmem with rfl | rfl | rfl | rfl | rfl | rfl <;>
      constructor <;> linarith [hmul, hr1, hc1, h0r, h0c, hrc]
  · intro v hv
    have hmem : v ∈ gridVerts cols rows w h := hv
    rw [gridVerts] at hmem
    rw [List.mem_flatMap] at hmem
    obtain ⟨r, hrm, hmem⟩ := hmem
    rw [List.mem_map] at hmem
    obtain ⟨c, hcm, rfl⟩ := hmem
    rw [List.mem_range] at hrm hcm
    have hcq : (0 : ℚ) < (cols : ℚ) := by
      exact_mod_cast (by omega : (0 : ℤ) < cols)
    have hrq : (0 : ℚ) < (rows : ℚ) := by
      exact_mod_cast (by omega : (0 : ℤ) < rows)
    have hcle : (c : ℚ) ≤ (cols : ℚ) := by
      have : ((c : ℤ) : ℚ) ≤ ((cols : ℤ) : ℚ) := by
        exact_mod_cast (by omega : (c : ℤ) ≤ cols)
      exact_mod_cast this
    have hrle : (r : ℚ) ≤ (rows : ℚ) := by
      have : ((r : ℤ) : ℚ) ≤ ((rows : ℤ) : ℚ) := by
        exact_mod_cast (by omega : (r : ℤ) ≤ rows)
      exact_mod_cast this
    have hu0 : (0 : ℚ) ≤ (c : ℚ) / (cols : ℚ) :=
      div_nonneg (Nat.cast_nonneg c) (le_of_lt hcq)
    have hu1 : (c : ℚ) / (cols : ℚ) ≤ 1 := (div_le_one hcq).mpr hcle
    have hv0 : (0 : ℚ) ≤ (r : ℚ) / (rows : ℚ) :=
      div_nonneg (Nat.cast_nonneg r) (le_of_lt hrq)
    have hv1 : (r : ℚ) / (rows : ℚ) ≤ 1 := (div_le_one hrq).mpr hrle
    refine ⟨hu0, hu1, by simp [gridVertex]; linarith, by simp [gridVertex]; linarith⟩

/-- Witness for C3 at `cols=2, rows=1, width=4, height=2`, with the
vertex and index counts also evaluated concretely (6 and 12). -/
theorem grid_mesh_invariants_witness :
    ((generateGrid 2 1 4 2).verts.length =
      ((2 : ℤ).toNat + 1) * ((1 : ℤ).toNat + 1) ∧
     (generateGrid 2 1 4 2).idx.length = (2 : ℤ).toNat * (1 : ℤ).toNat * 6) ∧
    (generateGrid 2 1 4 2).verts.length = 6 ∧
    (generateGrid 2 1 4 2).idx.length = 12 :=
  ⟨⟨(grid_mesh_invariants 2 1 4 2 (by norm_num) (by norm_num) (by norm_num)
      (by norm_num)).1,
    (grid_mesh_invariants 2 1 4 2 (by norm_num) (by norm_num) (by norm_num)
      (by norm_num)).2.1⟩,
   rfl, rfl⟩

/-- C9: evaluated with `localOffset = center` the displacement is well
defined (no NaN/Inf): the direction is `normalize(d + (1e-4, 1e-4))`, and
at the singular point `d = 0` the biased vector `(1e-4, 1e-4)` has
nonzero length, so the normalization never divides by zero. -/
theorem displace_at_center_no_nan (center vel : ℝ × ℝ)
    (time amplitude frequency damping : ℝ) :
    (displace center center vel time amplitude frequency damping).isSome := by
  have hdir : jellyDirRaw center center = (1/10000, 1/10000) := by
    simp [jellyDirRaw]
  have hpos : (0 : ℝ) < Real.sqrt ((1/10000 : ℝ) ^ 2 + (1/10000 : ℝ) ^ 2) :=
    Real.sqrt_pos.mpr (by norm_num)
  simp [displace, normalizeOpt, hdir, ne_of_gt hpos]

/-- C10: the epsilon bias only shifts the singular point: for a vertex
with `localOffset - center = (-1e-4, -1e-4)` the biased direction
`d + (1e-4, 1e-4)` is exactly the zero vector, the wave value at that
vertex (here with time `-1/4`, amplitude 6, frequency 0, damping 0) is
nonzero, and the displaced result is undefined (NaN under IEEE
`normalize(0)`), modelled as `none`. -/
theorem displace_at_biased_singularity :
    jellyDirRaw (-(1/10000), -(1/10000)) (0, 0) = (0, 0) ∧
    jellyWave (-(1/10000), -(1/10000)) (0, 0) (-(1/4)) 0 6 0 ≠ 0 ∧
    displace (-(1/10000), -(1/10000)) (0, 0) (0, 0) (-(1/4)) 6 0 0 =
      none := by
  have hdir : jellyDirRaw (-(1/10000), -(1/10000)) ((0 : ℝ), (0 : ℝ)) =
      (0, 0) := by
    simp [jellyDirRaw, Prod.ext_iff]
  refine ⟨hdir, ?_, ?_⟩
  · unfold jellyWave
    have harg : (0 : ℝ) * jellyDist (-(1/10000), -(1/10000)) (0, 0) -
        (-(1/4)) * (62831/10000) = 62831/40000 := by ring
    have hdamp : -(jellyDist (-(1/10000), -(1/10000)) ((0 : ℝ), (0 : ℝ))) *
        (0 : ℝ) = 0 := by ring
    rw [harg, hdamp, Real.exp_zero, mul_one]
    have hsin : 0 < Real.sin ((62831 : ℝ)/40000) :=
      Real.sin_pos_of_pos_of_lt_pi (by norm_num)
        (by linarith [Real.pi_gt_three])
    exact mul_ne_zero (ne_of_gt hsin) (by norm_num)
  · unfold displace
    rw [hdir]
    simp [normalizeOpt]

end WobblyJelly
